import Mathlib

/-!
Verification of the database-crd reconciliation controller.

This file gives a shallow embedding of the parts of the Go sources that the
verified properties are about:

* `utils` (semantic-version comparison: `CompareVersions`, `IsVersionDowngrade`),
* `controllers/database_controller.go` (`Reconcile`, `handleDeletion`,
  `validateSpec`, `validateVersionUpgrade`, `checkMaintenanceWindow`,
  `ensureBackupCronJob`, `handleCredentialRotation`, `updatePhase`,
  `setCondition`),
* `auth/rotation.go` (the `RotationManager` credential-rotation state machine:
  `RotateCredentials` and its per-phase handlers),
* `backup/backup.go` (`CreateBackupCronJob`).

Go enumerations that are string types in the source (`DatabaseEngine`,
`TopologyMode`, `DeletionPolicy`, `DatabasePhase`, rotation phases) are kept as
`String` here, exactly as in the source, so that unknown values behave the way
the Go `switch`/`if` chains treat them.  External effects (platform client
calls, engine calls) are modelled by an explicit environment of call outcomes
and an effect trace recording which calls the controller issued.
-/

namespace DatabaseCRD

/-! ## Data model (api/v1 database_types.go) -/

/-- `metav1.Condition` as used by the controller: `LastTransitionTime` is an
absolute timestamp (modelled as an integer), `Status` is the boolean condition
status (`metav1.ConditionTrue`/`ConditionFalse`). -/
structure Condition where
  type : String
  status : Bool
  observedGeneration : Int
  lastTransitionTime : Int
  reason : String
  message : String
deriving DecidableEq, Repr

/-- `RotationStatus`: credential-rotation sub-status persisted on the Database
status.  Timestamps are integers; `none` models a nil pointer. -/
structure RotationStatus where
  phase : String
  jobName : String
  lastRotation : Option Int
  nextRotation : Option Int
deriving DecidableEq, Repr

/-- The zero value `dbv1.RotationStatus{}` allocated by the Go code when the
pointer is nil. -/
def emptyRotationStatus : RotationStatus :=
  { phase := "", jobName := "", lastRotation := none, nextRotation := none }

/-- One maintenance window from `spec.maintenance.windows`: day of week as in
Go (`int`, Sunday = 0), start time as the raw `"15:04"` string, duration in
nanoseconds (`metav1.Duration` wraps `time.Duration`). -/
structure MaintenanceWindow where
  dayOfWeek : Int
  startTime : String
  duration : Int
deriving DecidableEq, Repr

/-- `spec.topology`. -/
structure Topology where
  mode : String
  replicas : Int
deriving DecidableEq, Repr

/-- `spec.backup` (fields the embedded code reads). -/
structure BackupSpec where
  enabled : Bool
  schedule : String
  retention : Int
deriving DecidableEq, Repr

/-- `spec.auth.consul` (nil pointer modelled by `Option` at the use site). -/
structure ConsulSpec where
  enabled : Bool
  path : String
deriving DecidableEq, Repr

/-- `spec.auth.rotationPolicy`. -/
structure RotationPolicy where
  enabled : Bool
  schedule : String
deriving DecidableEq, Repr

/-- `spec.auth`. -/
structure AuthSpec where
  consul : Option ConsulSpec
  rotationPolicy : Option RotationPolicy
deriving DecidableEq, Repr

/-- `spec.maintenance`. -/
structure MaintenanceSpec where
  windows : List MaintenanceWindow
deriving DecidableEq, Repr

/-- `spec.lifecycle`; `deletionPolicy` is the Go string enum
(`"Retain" | "Snapshot" | "Delete"`). -/
structure Lifecycle where
  paused : Bool
  deletionPolicy : String
deriving DecidableEq, Repr

/-- `spec.restore` contents (only its presence matters to the embedded code). -/
structure RestoreSpec where
  backupName : String
deriving DecidableEq, Repr

/-- `DatabaseSpec` (fields the embedded code reads). `engine` is the Go string
enum (`"PostgreSQL" | "MongoDB" | "Redis" | "Elasticsearch" | "SQLite"`). -/
structure DatabaseSpec where
  engine : String
  version : String
  topology : Topology
  backup : BackupSpec
  auth : AuthSpec
  maintenance : MaintenanceSpec
  lifecycle : Lifecycle
  restore : Option RestoreSpec
deriving DecidableEq, Repr

/-- `DatabaseStatus` (fields the embedded code reads or writes).  `phase` is
the Go string enum; `health` stands for the opaque health snapshot. -/
structure DatabaseStatus where
  phase : String
  conditions : List Condition
  readyReplicas : Int
  endpoint : String
  currentVersion : String
  observedGeneration : Int
  lastReconcileTime : Option Int
  health : String
  rotationStatus : Option RotationStatus
deriving DecidableEq, Repr

/-- A `Database` resource: object metadata the controller reads (name,
generation, deletion timestamp, finalizers) plus spec and status. -/
structure Database where
  name : String
  generation : Int
  deletionTimestamp : Option Int
  finalizers : List String
  spec : DatabaseSpec
  status : DatabaseStatus
deriving DecidableEq, Repr

/-- The finalizer constant `databaseFinalizer` of the controller. -/
def databaseFinalizer : String := "db.platform.io/finalizer"

/-! ## Version utilities (utils package) -/

/-- Split a character list at every occurrence of the separator character;
the semantics of Go's `strings.Split` for a single-character separator
(splitting the empty string yields one empty field). -/
def splitChar (sep : Char) : List Char → List (List Char)
  | [] => [[]]
  | c :: cs =>
    let rest := splitChar sep cs
    if c = sep then [] :: rest
    else
      match rest with
      | [] => [[c]]
      | r :: rs => (c :: r) :: rs

/-- `strings.Split s (String.singleton sep)` as a list of strings. -/
def splitOnChar (s : String) (sep : Char) : List String :=
  (splitChar sep s.toList).map (fun cs => { data := cs })

/-- `strconv.Atoi`: optional sign followed by at least one decimal digit,
consuming the whole string; `none` models the error return. -/
def atoi? (s : String) : Option Int :=
  let signSplit : Bool × List Char :=
    match s.toList with
    | '+' :: rest => (false, rest)
    | '-' :: rest => (true, rest)
    | rest => (false, rest)
  let neg := signSplit.1
  let ds := signSplit.2
  if ds.isEmpty then none
  else if ds.all Char.isDigit then
    let n : Nat := ds.foldl (fun acc c => acc * 10 + (c.toNat - 48)) 0
    some (if neg then -(n : Int) else (n : Int))
  else none

/-- One loop iteration of `CompareVersions`: component `i` of the split
version, with missing components read as `0` and a malformed component
reported as `invalid version format` for that version string. -/
def versionComponent (v : String) (parts : List String) (i : Nat) : Except String Int :=
  match parts[i]? with
  | none => Except.ok 0
  | some p =>
    match atoi? p with
    | some n => Except.ok n
    | none => Except.error ("invalid version format: " ++ v)

/-- The `for i := 0; i < maxLen; i++` loop of `CompareVersions`, written with
the remaining iteration count as the recursion fuel (`fuel = maxLen - i`). -/
def compareVersionsLoop (v1 v2 : String) (ps1 ps2 : List String) (i : Nat) :
    Nat → Except String Int
  | 0 => Except.ok 0
  | fuel + 1 =>
    match versionComponent v1 ps1 i with
    | Except.error e => Except.error e
    | Except.ok n1 =>
      match versionComponent v2 ps2 i with
      | Except.error e => Except.error e
      | Except.ok n2 =>
        if n1 < n2 then Except.ok (-1)
        else if n1 > n2 then Except.ok 1
        else compareVersionsLoop v1 v2 ps1 ps2 (i + 1) fuel

/-- `utils.CompareVersions`: split both versions on `"."`, compare component
by component left to right, missing components as zero; first strictly
smaller/larger component decides. -/
def CompareVersions (v1 v2 : String) : Except String Int :=
  let parts1 := splitOnChar v1 '.'
  let parts2 := splitOnChar v2 '.'
  compareVersionsLoop v1 v2 parts1 parts2 0 (max parts1.length parts2.length)

/-- `utils.IsVersionDowngrade`: `newVersion` is a downgrade from
`currentVersion` iff `CompareVersions currentVersion newVersion > 0`. -/
def IsVersionDowngrade (currentVersion newVersion : String) : Except String Bool :=
  match CompareVersions currentVersion newVersion with
  | Except.error e => Except.error e
  | Except.ok cmp => Except.ok (decide (cmp > 0))

/-! ## Spec validation (database_controller.go) -/

/-- `validateVersionUpgrade` of the controller.  The Go body is
`// TODO: Implement version comparison logic` / `// For now, allow all version
changes` / `return nil`: it accepts every pair of versions. -/
def validateVersionUpgrade (currentVersion desiredVersion : String) : Option String :=
  none

/-- `validateSpec`: SQLite with more than one replica is rejected,
Elasticsearch in Standalone topology is rejected, then (when a current version
has been observed) `validateVersionUpgrade` runs; `some msg` models the error
return. -/
def validateSpec (db : Database) : Option String :=
  if db.spec.engine = "SQLite" ∧ db.spec.topology.replicas > 1 then
    some "SQLite does not support multiple replicas"
  else if db.spec.engine = "Elasticsearch" ∧ db.spec.topology.mode = "Standalone" then
    some "Elasticsearch requires at least 3 nodes for production use"
  else if db.status.currentVersion ≠ "" then
    validateVersionUpgrade db.status.currentVersion db.spec.version
  else none

/-! ## Maintenance windows (database_controller.go) -/

/-- The current wall-clock instant as the controller reads it: weekday as in
Go (`int(now.Weekday())`, Sunday = 0) and nanoseconds since local midnight. -/
structure WeekTime where
  weekday : Int
  nanoOfDay : Int
deriving DecidableEq, Repr

/-- Decimal digit value of a character, `none` if not a digit. -/
def digitVal (c : Char) : Option Nat :=
  if c.isDigit then some (c.toNat - 48) else none

/-- The hour field of Go layout `"15"`: one or two decimal digits. -/
def parseHourStr (s : String) : Option Nat :=
  match s.toList with
  | [c] => digitVal c
  | [c1, c2] =>
    match digitVal c1, digitVal c2 with
    | some d1, some d2 => some (d1 * 10 + d2)
    | _, _ => none
  | _ => none

/-- The minute field of Go layout `"04"`: exactly two decimal digits. -/
def parseMinuteStr (s : String) : Option Nat :=
  match s.toList with
  | [c1, c2] =>
    match digitVal c1, digitVal c2 with
    | some d1, some d2 => some (d1 * 10 + d2)
    | _, _ => none
  | _ => none

/-- `time.Parse("15:04", s)`: hour then `":"` then minute, whole string
consumed, fields in range. -/
def parseHHMM (s : String) : Option (Nat × Nat) :=
  match splitOnChar s ':' with
  | [hs, ms] =>
    match parseHourStr hs, parseMinuteStr ms with
    | some h, some m => if h ≤ 23 ∧ m ≤ 59 then some (h, m) else none
    | _, _ => none
  | _ => none

/-- One iteration of the window loop in `checkMaintenanceWindow`: the weekday
must match, the start time must parse (a parse failure is `continue`), and
`now` must lie strictly between today's window start and start + duration
(`now.After(windowStart) && now.Before(windowEnd)`). -/
def windowMatches (now : WeekTime) (w : MaintenanceWindow) : Bool :=
  if now.weekday = w.dayOfWeek then
    match parseHHMM w.startTime with
    | none => false
    | some hm =>
      let windowStart : Int := (Int.ofNat (hm.1 * 3600 + hm.2 * 60)) * 1000000000
      let windowEnd : Int := windowStart + w.duration
      if now.nanoOfDay > windowStart ∧ now.nanoOfDay < windowEnd then true else false
  else false

/-- `checkMaintenanceWindow`: no configured windows means no restriction;
otherwise `nil` iff some window currently matches, else the
`"not in maintenance window"` error. -/
def checkMaintenanceWindow (now : WeekTime) (windows : List MaintenanceWindow) :
    Option String :=
  if windows.isEmpty then none
  else if windows.any (fun w => windowMatches now w) then none
  else some "not in maintenance window"

/-- The upgrade decision taken by `Reconcile` around `checkMaintenanceWindow`. -/
inductive UpgradeAction where
  /-- no version mismatch: the upgrade block is skipped -/
  | notNeeded : UpgradeAction
  /-- upgrade deferred: requeue after the given number of seconds, with the
  given returned error (the source returns `nil`) -/
  | deferred (requeueAfterSec : Int) (err : Option String) : UpgradeAction
  /-- inside a window: the upgrade proceeds -/
  | proceeded : UpgradeAction
deriving DecidableEq, Repr

/-- The gate at the top of the upgrade block of `Reconcile`: if a running
version was observed and differs from the desired version, consult
`checkMaintenanceWindow`; on its error return
`ctrl.Result{RequeueAfter: 5 * time.Minute}, nil` (deferral, not failure),
otherwise proceed with the upgrade. -/
def upgradeGate (db : Database) (now : WeekTime) : UpgradeAction :=
  if db.status.currentVersion ≠ "" ∧ db.status.currentVersion ≠ db.spec.version then
    match checkMaintenanceWindow now db.spec.maintenance.windows with
    | some _ => UpgradeAction.deferred 300 none
    | none => UpgradeAction.proceeded
  else UpgradeAction.notNeeded

/-! ## Conditions (database_controller.go) -/

/-- `setCondition`: scan the stored conditions for the first entry with the
same type; if found and its boolean status changed, replace that entry with
the new condition, otherwise leave the list untouched; if no entry has the
type, append the new condition. -/
def setCondition : List Condition → Condition → List Condition
  | [], c => [c]
  | x :: xs, c =>
    if x.type = c.type then
      (if x.status ≠ c.status then c else x) :: xs
    else
      x :: setCondition xs c

/-- `updatePhase`: sets `db.Status.Phase` on the in-memory object only (no
platform call). -/
def updatePhase (db : Database) (phase : String) : Database :=
  { db with status := { db.status with phase := phase } }

/-- Build the `metav1.Condition` literal of `setCondition`'s caller and store
it through `setCondition`. -/
def withCondition (db : Database) (now : Int) (typ : String) (status : Bool)
    (reason message : String) : Database :=
  let c : Condition :=
    { type := typ, status := status, observedGeneration := db.generation,
      lastTransitionTime := now, reason := reason, message := message }
  { db with status := { db.status with conditions := setCondition db.status.conditions c } }

/-! ## Credential rotation state machine (auth/rotation.go) -/

/-- The five rotation phase constants of `auth/rotation.go`. -/
def RotationPhaseIdle : String := "Idle"

/-- Rotation phase constant `CreatingNew`. -/
def RotationPhaseCreatingNew : String := "CreatingNew"

/-- Rotation phase constant `Cutover`. -/
def RotationPhaseCutover : String := "Cutover"

/-- Rotation phase constant `Revoking`. -/
def RotationPhaseRevoking : String := "Revoking"

/-- Rotation phase constant `Complete`. -/
def RotationPhaseComplete : String := "Complete"

/-- `batchv1.JobStatus` fields read by the rotation manager. -/
structure JobStatus where
  succeeded : Int
  failed : Int
deriving DecidableEq, Repr

/-- Outcomes of the external calls a single `RotateCredentials` invocation can
make (platform client creates/gets/deletes, owner-reference wiring, random
password generation).  Each field is consulted at most once per invocation. -/
structure RotEnv where
  genPasswordOk : Bool
  setRefNewSecretOk : Bool
  createNewSecretOk : Bool
  setRefJobOk : Bool
  createJobOk : Bool
  jobGet : Option JobStatus
  newSecretGetOk : Bool
  oldSecretGetOk : Bool
  backupCreateOk : Bool
  oldDeleteOk : Bool
  setRefPrimaryOk : Bool
  primaryCreateOk : Bool
  newDeleteOk : Bool
  now : Int
deriving DecidableEq, Repr

/-- Whether Consul sync is configured: `db.Spec.Auth.Consul != nil &&
db.Spec.Auth.Consul.Enabled`. -/
def consulEnabled (db : Database) : Bool :=
  match db.spec.auth.consul with
  | some c => c.enabled
  | none => false

/-- `syncToConsul` of `auth/rotation.go`: the body is a TODO and always
returns the `Consul integration not yet implemented` error. -/
def syncToConsul (db : Database) (password : String) : Option String :=
  some "Consul integration not yet implemented"

/-- Name of the Job created by `createRotationJob`:
`fmt.Sprintf("%s-rotation-%s-%d", db.Name, phase, metav1.Now().Unix())`. -/
def rotationJobName (db : Database) (phase : String) (now : Int) : String :=
  db.name ++ "-rotation-" ++ phase ++ "-" ++ toString now

/-- Replace the rotation sub-status on a database. -/
def setRotationStatus (db : Database) (rs : RotationStatus) : Database :=
  { db with status := { db.status with rotationStatus := some rs } }

/-- `startRotation` (Idle → CreatingNew).  The phase field is assigned
`CreatingNew` before any external call; the later failure returns therefore
leave the phase at `CreatingNew`.  When Consul is configured the sync runs
after the new secret is created and its failure aborts the rest (no rotation
job is launched), surfacing the wrapped error. -/
def startRotation (db : Database) (env : RotEnv) : Option String × Database :=
  let rs0 := db.status.rotationStatus.getD emptyRotationStatus
  let rs1 := { rs0 with phase := RotationPhaseCreatingNew }
  let db1 := setRotationStatus db rs1
  if !env.genPasswordOk then
    (some "failed to generate new password", db1)
  else if !env.setRefNewSecretOk then
    (some "failed to set controller reference", db1)
  else if !env.createNewSecretOk then
    (some "failed to create new credentials secret", db1)
  else if consulEnabled db1 then
    match syncToConsul db1 "password" with
    | some e => (some ("failed to sync credentials to Consul: " ++ e), db1)
    | none =>
      if !env.setRefJobOk then
        (some "failed to set controller reference", db1)
      else if !env.createJobOk then
        (some "failed to create rotation job", db1)
      else
        (none, setRotationStatus db1
          { rs1 with jobName := rotationJobName db1 RotationPhaseCreatingNew env.now })
  else if !env.setRefJobOk then
    (some "failed to set controller reference", db1)
  else if !env.createJobOk then
    (some "failed to create rotation job", db1)
  else
    (none, setRotationStatus db1
      { rs1 with jobName := rotationJobName db1 RotationPhaseCreatingNew env.now })

/-- `checkCreationJob` (CreatingNew → Cutover on job success; stay in
CreatingNew while the job runs, on job failure, or on a lookup error). -/
def checkCreationJob (db : Database) (env : RotEnv) : Option String × Database :=
  let rs0 := db.status.rotationStatus.getD emptyRotationStatus
  if rs0.jobName = "" then
    (some "no job name in rotation status", db)
  else
    match env.jobGet with
    | none => (some "failed to get job", db)
    | some job =>
      if job.succeeded > 0 then
        (none, setRotationStatus db { rs0 with phase := RotationPhaseCutover })
      else if job.failed > 0 then
        (some "rotation job failed", db)
      else
        (none, db)

/-- `performCutover` (Cutover → Revoking): shuffle the `-new`/`-credentials`/
`-old` secrets, set the phase to Revoking, then launch the revocation job.
Failures before the phase assignment leave the phase at Cutover; a failure
launching the revocation job returns an error with the phase already set to
Revoking. -/
def performCutover (db : Database) (env : RotEnv) : Option String × Database :=
  let rs0 := db.status.rotationStatus.getD emptyRotationStatus
  if !env.newSecretGetOk then
    (some "failed to get new credentials", db)
  else if env.oldSecretGetOk ∧ !env.backupCreateOk then
    (some "failed to backup old credentials", db)
  else if env.oldSecretGetOk ∧ !env.oldDeleteOk then
    (some "failed to delete old credentials", db)
  else if !env.setRefPrimaryOk then
    (some "failed to set controller reference", db)
  else if !env.primaryCreateOk then
    (some "failed to create primary credentials", db)
  else if !env.newDeleteOk then
    (some "failed to delete new credentials secret", db)
  else
    let rs1 := { rs0 with phase := RotationPhaseRevoking }
    let db1 := setRotationStatus db rs1
    if !env.setRefJobOk then
      (some "failed to set controller reference", db1)
    else if !env.createJobOk then
      (some "failed to create revocation job", db1)
    else
      (none, setRotationStatus db1
        { rs1 with jobName := rotationJobName db1 RotationPhaseRevoking env.now })

/-- `revokeOldCredentials` (Revoking → Complete on revocation-job success; the
old-backup secret deletion error is deliberately ignored by the source). -/
def revokeOldCredentials (db : Database) (env : RotEnv) : Option String × Database :=
  let rs0 := db.status.rotationStatus.getD emptyRotationStatus
  if rs0.jobName = "" then
    (some "no job name in rotation status", db)
  else
    match env.jobGet with
    | none => (some "failed to get job", db)
    | some job =>
      if job.succeeded > 0 then
        (none, setRotationStatus db { rs0 with phase := RotationPhaseComplete })
      else if job.failed > 0 then
        (some "revocation job failed", db)
      else
        (none, db)

/-- `completeRotation` (Complete → Idle): record the last-rotation timestamp
and clear the job name. -/
def completeRotation (db : Database) (env : RotEnv) : Option String × Database :=
  let rs0 := db.status.rotationStatus.getD emptyRotationStatus
  (none, setRotationStatus db
    { rs0 with phase := RotationPhaseIdle, lastRotation := some env.now, jobName := "" })

/-- The phase `RotateCredentials` dispatches on: `Idle` when the rotation
status pointer is nil, otherwise the stored phase string. -/
def currentRotationPhase (db : Database) : String :=
  match db.status.rotationStatus with
  | some rs => rs.phase
  | none => RotationPhaseIdle

/-- `RotateCredentials`: dispatch on the persisted phase; `""` is treated like
`Idle`; an unknown phase is an error with no state change. -/
def RotateCredentials (db : Database) (env : RotEnv) : Option String × Database :=
  let phase := currentRotationPhase db
  if phase = RotationPhaseIdle ∨ phase = "" then startRotation db env
  else if phase = RotationPhaseCreatingNew then checkCreationJob db env
  else if phase = RotationPhaseCutover then performCutover db env
  else if phase = RotationPhaseRevoking then revokeOldCredentials db env
  else if phase = RotationPhaseComplete then completeRotation db env
  else (some ("unknown rotation phase: " ++ phase), db)

/-- The dispatch phase with the empty string normalised to `Idle`, which is
how `RotateCredentials` treats it. -/
def normPhase (db : Database) : String :=
  if currentRotationPhase db = "" then RotationPhaseIdle else currentRotationPhase db

/-- The five defined rotation phases. -/
def rotationPhases : List String :=
  [RotationPhaseIdle, RotationPhaseCreatingNew, RotationPhaseCutover,
   RotationPhaseRevoking, RotationPhaseComplete]

/-- Successor in the cyclic rotation state machine
Idle → CreatingNew → Cutover → Revoking → Complete → Idle. -/
def succPhase (p : String) : String :=
  if p = RotationPhaseIdle then RotationPhaseCreatingNew
  else if p = RotationPhaseCreatingNew then RotationPhaseCutover
  else if p = RotationPhaseCutover then RotationPhaseRevoking
  else if p = RotationPhaseRevoking then RotationPhaseComplete
  else if p = RotationPhaseComplete then RotationPhaseIdle
  else p

/-- A sequence of `RotateCredentials` calls, one per reconciliation cycle,
each with its own external-call outcomes.  Between any two calls the process
may restart: all rotation state lives in the persisted status carried by the
`Database` value, so a restart is the identity on this state. -/
def advanceSeq (db : Database) (envs : List RotEnv) : Database :=
  envs.foldl (fun d e => (RotateCredentials d e).2) db

/-! ## Reconciliation loop with an effect trace (database_controller.go) -/

/-- Externally visible calls issued by one `Reconcile` invocation:
status-subresource persistence, spec/metadata updates, engine lifecycle calls,
and direct create/update/delete calls on owned sub-resources. -/
inductive Effect where
  | statusUpdate : Effect
  | specUpdate : Effect
  | engineCall (method : String) : Effect
  | createSub (kind : String) : Effect
  | updateSub (kind : String) : Effect
  | deleteSub (kind : String) : Effect
deriving DecidableEq, Repr

/-- Whether an effect is a delete call on an owned sub-resource. -/
def Effect.isDeleteSub : Effect → Bool
  | Effect.deleteSub _ => true
  | _ => false

/-- The `(ctrl.Result, error)` pair returned by `Reconcile`:
`requeue` is `Result.Requeue`, `requeueAfterSec` is `Result.RequeueAfter` in
seconds (0 when unset), `err` the Go error. -/
structure RResult where
  requeue : Bool
  requeueAfterSec : Int
  err : Option String
deriving DecidableEq, Repr

/-- Outcomes of the external calls one `Reconcile` invocation can make. -/
structure Env where
  updateOk : Bool
  engineFactoryOk : Bool
  engineValidateOk : Bool
  ensureStorageOk : Bool
  ensureConfigOk : Bool
  ensureServiceOk : Bool
  endpointResult : Option String
  restoreOk : Bool
  ensureWorkloadOk : Bool
  upgradeOk : Bool
  workloadReady : Option Int
  rotateAuthOk : Bool
  backupEngineOk : Bool
  healOk : Bool
  healthResult : Option String
  statusUpdateOk : Bool
  now : Int
  nowTime : WeekTime
deriving DecidableEq, Repr

/-- `controllerutil.RemoveFinalizer`. -/
def removeFinalizer (db : Database) : Database :=
  { db with finalizers := db.finalizers.filter (fun f => f ≠ databaseFinalizer) }

/-- `handleDeletion`: with the finalizer present, set phase `Deleting` and
persist it (best effort), then branch on the deletion policy — `Snapshot`
takes a best-effort backup through the engine, `Retain` removes the finalizer
and returns at once, `Delete` (and any unknown policy) relies on cascading
deletion — and finally remove the finalizer and persist.  No branch issues a
delete call against an owned sub-resource. -/
def handleDeletion (db : Database) (env : Env) : RResult × Database × List Effect :=
  if db.finalizers.contains databaseFinalizer then
    let db1 := updatePhase db "Deleting"
    let effs0 : List Effect := [Effect.statusUpdate]
    if db1.spec.lifecycle.deletionPolicy = "Retain" then
      let db2 := removeFinalizer db1
      if env.updateOk then
        ({ requeue := false, requeueAfterSec := 0, err := none }, db2,
          effs0 ++ [Effect.specUpdate])
      else
        ({ requeue := false, requeueAfterSec := 0, err := some "failed to update" }, db2,
          effs0 ++ [Effect.specUpdate])
    else
      let effs1 :=
        if db1.spec.lifecycle.deletionPolicy = "Snapshot" ∧ env.engineFactoryOk then
          effs0 ++ [Effect.engineCall "Backup"]
        else effs0
      let db2 := removeFinalizer db1
      if env.updateOk then
        ({ requeue := false, requeueAfterSec := 0, err := none }, db2,
          effs1 ++ [Effect.specUpdate])
      else
        ({ requeue := false, requeueAfterSec := 0, err := some "failed to remove finalizer" },
          db2, effs1 ++ [Effect.specUpdate])
  else
    ({ requeue := false, requeueAfterSec := 0, err := none }, db, [])

/-- `ensureBackupCronJob` of the controller: the body is a
`// TODO: Implement backup CronJob creation` stub that returns `nil` without
issuing any platform call — no scheduled execution template is created. -/
def ensureBackupCronJob (db : Database) : Option String × List Effect :=
  (none, [])

/-- `handleCredentialRotation`: skip when `status.rotationStatus.nextRotation`
is set and still in the future; otherwise invoke `engine.RotateAuth` (the
returned Bool records that invocation) and on success stamp
`lastRotation := now`.  The `nextRotation` recomputation is a TODO in the
source and is never performed. -/
def handleCredentialRotation (db : Database) (env : Env) :
    Option String × Database × Bool :=
  let due : Bool :=
    match db.status.rotationStatus with
    | some rs =>
      match rs.nextRotation with
      | some nr => !(decide (env.now < nr))
      | none => true
    | none => true
  if !due then (none, db, false)
  else if !env.rotateAuthOk then (some "rotate auth failed", db, true)
  else
    let rs0 := db.status.rotationStatus.getD emptyRotationStatus
    (none, setRotationStatus db { rs0 with lastRotation := some env.now }, true)

/-- The tail of `Reconcile` after a successful upgrade block: workload status
refresh, backup configuration, credential rotation, healing, health, version
and bookkeeping stamps, Ready phase, final status persistence. -/
def reconcileTail (db : Database) (env : Env) (effs : List Effect) :
    RResult × Database × List Effect :=
  let db1 :=
    match env.workloadReady with
    | some n => { db with status := { db.status with readyReplicas := n } }
    | none => db
  let stepBackup : Database × List Effect :=
    if db1.spec.backup.enabled then
      match ensureBackupCronJob db1 with
      | (some e, es) =>
        (withCondition db1 env.now "BackupConfigured" false "BackupFailed" e, effs ++ es)
      | (none, es) =>
        (withCondition db1 env.now "BackupConfigured" true "BackupConfigured"
          "Backup is configured", effs ++ es)
    else (db1, effs)
  let db2 := stepBackup.1
  let effs2 := stepBackup.2
  let stepRotation : Database × List Effect :=
    match db2.spec.auth.rotationPolicy with
    | some rp =>
      if rp.enabled then
        let r := handleCredentialRotation db2 env
        (r.2.1, effs2 ++ (if r.2.2 then [Effect.engineCall "RotateAuth"] else []))
      else (db2, effs2)
    | none => (db2, effs2)
  let db3 := stepRotation.1
  let effs3 := stepRotation.2 ++ [Effect.engineCall "Heal", Effect.engineCall "Status"]
  let db4 :=
    match env.healthResult with
    | some h => { db3 with status := { db3.status with health := h } }
    | none => db3
  let db5 := { db4 with status := { db4.status with
    currentVersion := db4.spec.version,
    observedGeneration := db4.generation,
    lastReconcileTime := some env.now } }
  let db6 :=
    if db5.status.readyReplicas = db5.spec.topology.replicas then
      withCondition (updatePhase db5 "Ready") env.now "Ready" true "Ready"
        "Database is ready"
    else db5
  if env.statusUpdateOk then
    ({ requeue := false, requeueAfterSec := 300, err := none }, db6,
      effs3 ++ [Effect.statusUpdate])
  else
    ({ requeue := false, requeueAfterSec := 0, err := some "failed to update status" },
      db6, effs3 ++ [Effect.statusUpdate])

/-- The body of `Reconcile` after the deletion / finalizer / paused guards:
spec validation, engine resolution and validation, storage / config / service /
endpoint / restore / workload convergence, the maintenance-gated upgrade block,
then `reconcileTail`. -/
def reconcileActive (db : Database) (env : Env) : RResult × Database × List Effect :=
  match validateSpec db with
  | some e =>
    let db1 := updatePhase
      (withCondition db env.now "Validated" false "ValidationFailed" e) "Failed"
    ({ requeue := false, requeueAfterSec := 0, err := some e }, db1,
      [Effect.statusUpdate])
  | none =>
  let db1 := withCondition db env.now "Validated" true "ValidationSucceeded"
    "Spec validation passed"
  if !env.engineFactoryOk then
    ({ requeue := false, requeueAfterSec := 0, err := some "failed to get engine" },
      updatePhase db1 "Failed", [Effect.statusUpdate])
  else if !env.engineValidateOk then
    let db2 := updatePhase
      (withCondition db1 env.now "Validated" false "EngineValidationFailed"
        "engine validation failed") "Failed"
    ({ requeue := false, requeueAfterSec := 0, err := some "engine validation failed" },
      db2, [Effect.engineCall "Validate", Effect.statusUpdate])
  else
  let db2 :=
    if db1.status.phase = "" ∨ db1.status.phase = "Pending" then
      updatePhase db1 "Provisioning"
    else db1
  let effs0 : List Effect := [Effect.engineCall "Validate"]
  if !env.ensureStorageOk then
    let db3 := withCondition db2 env.now "StorageReady" false "StorageFailed"
      "storage failed"
    ({ requeue := false, requeueAfterSec := 30, err := some "storage failed" }, db3,
      effs0 ++ [Effect.engineCall "EnsureStorage", Effect.statusUpdate])
  else
  let db3 := withCondition db2 env.now "StorageReady" true "StorageReady"
    "Storage is ready"
  let effs1 := effs0 ++ [Effect.engineCall "EnsureStorage"]
  if !env.ensureConfigOk then
    ({ requeue := false, requeueAfterSec := 30, err := some "config failed" }, db3,
      effs1 ++ [Effect.engineCall "EnsureConfig"])
  else
  let effs2 := effs1 ++ [Effect.engineCall "EnsureConfig"]
  if !env.ensureServiceOk then
    ({ requeue := false, requeueAfterSec := 30, err := some "service failed" }, db3,
      effs2 ++ [Effect.engineCall "EnsureService"])
  else
  let effs3 := effs2 ++ [Effect.engineCall "EnsureService", Effect.engineCall "GetEndpoint"]
  let db4 :=
    match env.endpointResult with
    | some ep => { db3 with status := { db3.status with endpoint := ep } }
    | none => db3
  if db4.spec.restore.isSome ∧ db4.status.phase ≠ "Ready" ∧ !env.restoreOk then
    ({ requeue := false, requeueAfterSec := 60, err := some "restore failed" }, db4,
      effs3 ++ [Effect.engineCall "Restore"])
  else
  let effs4 :=
    if db4.spec.restore.isSome ∧ db4.status.phase ≠ "Ready" then
      effs3 ++ [Effect.engineCall "Restore"]
    else effs3
  if !env.ensureWorkloadOk then
    ({ requeue := false, requeueAfterSec := 30, err := some "workload failed" }, db4,
      effs4 ++ [Effect.engineCall "EnsureWorkload"])
  else
  let db5 := withCondition db4 env.now "Provisioned" true "Provisioned"
    "Database is provisioned"
  let effs5 := effs4 ++ [Effect.engineCall "EnsureWorkload"]
  match upgradeGate db5 env.nowTime with
  | UpgradeAction.deferred sec e =>
    ({ requeue := false, requeueAfterSec := sec, err := e }, db5, effs5)
  | UpgradeAction.proceeded =>
    let db6 := withCondition (updatePhase db5 "Upgrading") env.now "Upgrading" true
      "Upgrading" "Database is being upgraded"
    if !env.upgradeOk then
      let db7 := withCondition db6 env.now "Upgrading" false "UpgradeFailed"
        "upgrade failed"
      ({ requeue := false, requeueAfterSec := 60, err := some "upgrade failed" }, db7,
        effs5 ++ [Effect.engineCall "Upgrade"])
    else
      let db7 := withCondition db6 env.now "Upgrading" false "UpgradeComplete"
        "Upgrade completed successfully"
      reconcileTail db7 env (effs5 ++ [Effect.engineCall "Upgrade"])
  | UpgradeAction.notNeeded =>
    reconcileTail db5 env effs5

/-- `Reconcile`: handle deletion, ensure the finalizer (persist and requeue),
honour `lifecycle.paused` — the paused branch assigns phase `Paused` on the
in-memory object and returns immediately, issuing no platform call at all —
then run the active reconciliation body. -/
def Reconcile (db : Database) (env : Env) : RResult × Database × List Effect :=
  if db.deletionTimestamp.isSome then
    handleDeletion db env
  else if !(db.finalizers.contains databaseFinalizer) then
    let db1 := { db with finalizers := db.finalizers ++ [databaseFinalizer] }
    if env.updateOk then
      ({ requeue := true, requeueAfterSec := 0, err := none }, db1, [Effect.specUpdate])
    else
      ({ requeue := false, requeueAfterSec := 0, err := some "failed to add finalizer" },
        db1, [Effect.specUpdate])
  else if db.spec.lifecycle.paused then
    ({ requeue := false, requeueAfterSec := 0, err := none },
      updatePhase db "Paused", [])
  else
    reconcileActive db env

/-! ## Backup manager (backup/backup.go) -/

/-- Name of the backup CronJob: `fmt.Sprintf("%s-backup", db.Name)` — a fixed
name keyed by resource identity. -/
def cronJobName (db : Database) : String := db.name ++ "-backup"

/-- `BackupManager.CreateBackupCronJob`: build the CronJob, set the owner
reference, then unconditionally call `Client.Create` — there is no existence
check and no update path, so a second invocation issues a second create for
the same fixed name (which the platform rejects as already existing, modelled
by `createOk = false`). -/
def CreateBackupCronJob (db : Database) (setRefOk createOk : Bool) :
    Option String × List Effect :=
  if !setRefOk then
    (some "failed to set controller reference", [])
  else if !createOk then
    (some "failed to create cronjob", [Effect.createSub "CronJob"])
  else
    (none, [Effect.createSub "CronJob"])

/-! ## Concrete instances used by counterexamples and witnesses -/

/-- A baseline spec: standalone-free PostgreSQL, nothing optional enabled. -/
def specBase : DatabaseSpec :=
  { engine := "PostgreSQL", version := "2.3.9",
    topology := { mode := "Replicated", replicas := 1 },
    backup := { enabled := false, schedule := "0 2 * * *", retention := 7 },
    auth := { consul := none, rotationPolicy := none },
    maintenance := { windows := [] },
    lifecycle := { paused := false, deletionPolicy := "Delete" },
    restore := none }

/-- A baseline empty status. -/
def statusBase : DatabaseStatus :=
  { phase := "", conditions := [], readyReplicas := 0, endpoint := "",
    currentVersion := "", observedGeneration := 0, lastReconcileTime := none,
    health := "", rotationStatus := none }

/-- A database whose observed running version is `2.4.1` while the desired
version is the downgrade `2.3.9`. -/
def dbDowngrade : Database :=
  { name := "db1", generation := 1, deletionTimestamp := none,
    finalizers := [databaseFinalizer],
    spec := specBase,
    status := { statusBase with currentVersion := "2.4.1" } }

/-- The maintenance window of the spec's gating example:
day = Sunday (0), start 02:00, duration 4h (in nanoseconds). -/
def winSunday : MaintenanceWindow :=
  { dayOfWeek := 0, startTime := "02:00", duration := 14400000000000 }

/-- Sunday 03:00 local time. -/
def sundayThreeAM : WeekTime := { weekday := 0, nanoOfDay := 10800000000000 }

/-- Monday 03:00 local time. -/
def mondayThreeAM : WeekTime := { weekday := 1, nanoOfDay := 10800000000000 }

/-- Spec for the upgrade-gating example: desired version 2.5.0, one Sunday
02:00+4h maintenance window. -/
def specUpgrade : DatabaseSpec :=
  { specBase with
    version := "2.5.0"
    maintenance := { windows := [winSunday] } }

/-- A database inside an upgrade (current 2.4.1, desired 2.5.0) restricted to
the Sunday 02:00+4h window. -/
def dbUpgrade : Database :=
  { dbDowngrade with spec := specUpgrade }

/-- An environment where every external call succeeds. -/
def envAllOk : Env :=
  { updateOk := true, engineFactoryOk := true, engineValidateOk := true,
    ensureStorageOk := true, ensureConfigOk := true, ensureServiceOk := true,
    endpointResult := some "db1.default.svc", restoreOk := true,
    ensureWorkloadOk := true, upgradeOk := true, workloadReady := some 1,
    rotateAuthOk := true, backupEngineOk := true, healOk := true,
    healthResult := some "Healthy", statusUpdateOk := true, now := 5000,
    nowTime := { weekday := 0, nanoOfDay := 10800000000000 } }

/-- A rotation environment where every external call succeeds and the polled
job has succeeded. -/
def rotEnvAllOk : RotEnv :=
  { genPasswordOk := true, setRefNewSecretOk := true, createNewSecretOk := true,
    setRefJobOk := true, createJobOk := true,
    jobGet := some { succeeded := 1, failed := 0 },
    newSecretGetOk := true, oldSecretGetOk := true, backupCreateOk := true,
    oldDeleteOk := true, setRefPrimaryOk := true, primaryCreateOk := true,
    newDeleteOk := true, now := 5000 }

/-- A paused database (deletion timestamp absent, finalizer present). -/
def dbPaused : Database :=
  { dbDowngrade with
    spec := { specBase with lifecycle := { paused := true, deletionPolicy := "Delete" } } }

/-- A Consul configuration with sync enabled. -/
def consulOn : ConsulSpec := { enabled := true, path := "database/credentials/db1" }

/-- Rotation status sitting in phase `Idle`. -/
def rsIdle : RotationStatus := { emptyRotationStatus with phase := "Idle" }

/-- Database with Consul enabled, rotation phase `Idle`. -/
def dbConsulIdle : Database :=
  { dbDowngrade with
    spec := { specBase with auth := { consul := some consulOn, rotationPolicy := none } }
    status := { statusBase with rotationStatus := some rsIdle } }

/-- Rotation status after a completed rotation at time 1000, with the
next-rotation field never populated (the source's TODO). -/
def rsAfterRotation : RotationStatus :=
  { phase := "Idle", jobName := "", lastRotation := some 1000, nextRotation := none }

/-- A monthly (30-day, in seconds) rotation policy. -/
def rotPolicyMonthly : RotationPolicy := { enabled := true, schedule := "0 0 1 * *" }

/-- Database with rotation policy enabled that last rotated at time 1000. -/
def dbJustRotated : Database :=
  { dbDowngrade with
    spec := { specBase with auth := { consul := none, rotationPolicy := some rotPolicyMonthly } }
    status := { statusBase with rotationStatus := some rsAfterRotation } }

/-- Database with deletion timestamp set and policy `Retain`. -/
def dbRetain : Database :=
  { dbDowngrade with
    deletionTimestamp := some 99
    spec := { specBase with lifecycle := { paused := false, deletionPolicy := "Retain" } } }

/-- Database with backup enabled. -/
def dbBackup : Database :=
  { dbDowngrade with
    spec := { specBase with backup := { enabled := true, schedule := "0 2 * * *", retention := 7 } } }

/-! ## Theorems -/

/-- C1: the spec (and the controller's own README) require
`validate("2.4.1","2.3.9")` to fail as a downgrade, but `validateSpec` accepts
it: `validateVersionUpgrade` is a TODO stub returning `nil`, never wired to
the `utils` comparison.  The conjuncts show (1) the code accepts the
downgrade, (2) the repository's own `IsVersionDowngrade` classifies
`2.3.9` as a downgrade from `2.4.1`, and (3)–(4) the comparison semantics on
the spec's two accepted examples match the spec (equal and upgrade). -/
theorem downgrade_accepted_by_validateSpec :
    validateSpec dbDowngrade = none ∧
    IsVersionDowngrade "2.4.1" "2.3.9" = Except.ok true ∧
    CompareVersions "2.4.1" "2.4.1" = Except.ok 0 ∧
    CompareVersions "2.4.1" "2.5.0" = Except.ok (-1) := by
  exact ⟨by decide, rfl, rfl, rfl⟩

/-- C5: with the window {Sunday, 02:00, 4h}, a database whose observed
running version differs from the desired version proceeds with the upgrade at
Sunday 03:00 and is deferred at Monday 03:00 with no error and a
5-minute requeue (`deferred 300 none`). -/
theorem maintenance_window_gates_upgrade (db : Database)
    (hw : db.spec.maintenance.windows = [winSunday])
    (hcv : db.status.currentVersion ≠ "")
    (hne : db.status.currentVersion ≠ db.spec.version) :
    upgradeGate db sundayThreeAM = UpgradeAction.proceeded ∧
    upgradeGate db mondayThreeAM = UpgradeAction.deferred 300 none := by
  constructor <;>
    · rw [upgradeGate, if_pos ⟨hcv, hne⟩, hw]
      decide

/-- C5 witness: the gating theorem applied to the concrete `dbUpgrade`. -/
theorem maintenance_window_gates_upgrade_witness :
    dbUpgrade.spec.maintenance.windows = [winSunday] ∧
    dbUpgrade.status.currentVersion ≠ "" ∧
    dbUpgrade.status.currentVersion ≠ dbUpgrade.spec.version ∧
    (upgradeGate dbUpgrade sundayThreeAM = UpgradeAction.proceeded ∧
     upgradeGate dbUpgrade mondayThreeAM = UpgradeAction.deferred 300 none) :=
  ⟨by decide, by decide, by decide,
   maintenance_window_gates_upgrade dbUpgrade (by decide) (by decide) (by decide)⟩

/-- C8: `validateSpec` rejects exactly the SQLite/replicas>1 and
Elasticsearch/Standalone combinations: it returns an error if and only if one
of those two holds (the version check, a stub, never fires), so every other
engine/replica/topology combination passes. -/
theorem validateSpec_rejects_exactly_topology_violations (db : Database) :
    (validateSpec db).isSome = true ↔
      ((db.spec.engine = "SQLite" ∧ db.spec.topology.replicas > 1) ∨
       (db.spec.engine = "Elasticsearch" ∧ db.spec.topology.mode = "Standalone")) := by
  unfold validateSpec validateVersionUpgrade
  split_ifs with h1 h2 h3 <;> simp_all

/-- Reading the phase back from a stored rotation status. -/
theorem currentRotationPhase_setRotationStatus (db : Database) (rs : RotationStatus) :
    currentRotationPhase (setRotationStatus db rs) = rs.phase := rfl

/-- `startRotation` always leaves the stored phase at `CreatingNew`,
whichever external call fails: the phase field is assigned first. -/
theorem startRotation_phase (db : Database) (env : RotEnv) :
    currentRotationPhase (startRotation db env).2 = RotationPhaseCreatingNew := by
  unfold startRotation
  simp only [syncToConsul]
  split_ifs <;> rfl

/-- `checkCreationJob` either leaves the database untouched or stores phase
`Cutover`. -/
theorem checkCreationJob_cases (db : Database) (env : RotEnv) :
    (checkCreationJob db env).2 = db ∨
    currentRotationPhase (checkCreationJob db env).2 = RotationPhaseCutover := by
  rcases henv : env.jobGet with _ | j <;>
    simp only [checkCreationJob, henv] <;>
      split_ifs <;> simp [currentRotationPhase, setRotationStatus]

/-- `performCutover` either leaves the database untouched or stores phase
`Revoking`. -/
theorem performCutover_cases (db : Database) (env : RotEnv) :
    (performCutover db env).2 = db ∨
    currentRotationPhase (performCutover db env).2 = RotationPhaseRevoking := by
  unfold performCutover
  split_ifs <;> simp [currentRotationPhase, setRotationStatus]

/-- `revokeOldCredentials` either leaves the database untouched or stores
phase `Complete`. -/
theorem revokeOldCredentials_cases (db : Database) (env : RotEnv) :
    (revokeOldCredentials db env).2 = db ∨
    currentRotationPhase (revokeOldCredentials db env).2 = RotationPhaseComplete := by
  rcases henv : env.jobGet with _ | j <;>
    simp only [revokeOldCredentials, henv] <;>
      split_ifs <;> simp [currentRotationPhase, setRotationStatus]

/-- `completeRotation` stores phase `Idle`. -/
theorem completeRotation_phase (db : Database) (env : RotEnv) :
    currentRotationPhase (completeRotation db env).2 = RotationPhaseIdle := rfl

/-- One `RotateCredentials` call from any of the five defined phases (or the
empty phase, treated as Idle) lands in one of the five defined phases and
moves at most one step along the cycle, never skipping ahead. -/
theorem rotate_step (db : Database) (env : RotEnv)
    (h : normPhase db ∈ rotationPhases) :
    normPhase (RotateCredentials db env).2 ∈ rotationPhases ∧
    (normPhase (RotateCredentials db env).2 = normPhase db ∨
     normPhase (RotateCredentials db env).2 = succPhase (normPhase db)) := by
  by_cases hp : currentRotationPhase db = ""
  · have hd : RotateCredentials db env = startRotation db env := by
      unfold RotateCredentials
      rw [hp]
      simp [RotationPhaseIdle]
    have hph := startRotation_phase db env
    rw [hd]
    refine ⟨?_, Or.inr ?_⟩
    · simp [normPhase, hph, rotationPhases, RotationPhaseIdle,
        RotationPhaseCreatingNew, RotationPhaseCutover, RotationPhaseRevoking,
        RotationPhaseComplete]
    · simp [normPhase, hph, hp, succPhase, RotationPhaseIdle,
        RotationPhaseCreatingNew, RotationPhaseCutover, RotationPhaseRevoking,
        RotationPhaseComplete]
  · have hnp : normPhase db = currentRotationPhase db := by
      simp [normPhase, hp]
    rw [hnp] at h
    simp only [rotationPhases, RotationPhaseIdle, RotationPhaseCreatingNew,
      RotationPhaseCutover, RotationPhaseRevoking, RotationPhaseComplete,
      List.mem_cons, List.not_mem_nil, or_false] at h
    rcases h with h | h | h | h | h
    · have hd : RotateCredentials db env = startRotation db env := by
        unfold RotateCredentials
        rw [h]
        simp [RotationPhaseIdle]
      have hph := startRotation_phase db env
      rw [hd]
      refine ⟨?_, Or.inr ?_⟩
      · simp [normPhase, hph, rotationPhases, RotationPhaseIdle,
          RotationPhaseCreatingNew, RotationPhaseCutover, RotationPhaseRevoking,
          RotationPhaseComplete]
      · simp [normPhase, hnp, hph, h, succPhase, RotationPhaseIdle,
          RotationPhaseCreatingNew, RotationPhaseCutover, RotationPhaseRevoking,
          RotationPhaseComplete]
    · have hd : RotateCredentials db env = checkCreationJob db env := by
        unfold RotateCredentials
        rw [h]
        simp [RotationPhaseIdle, RotationPhaseCreatingNew, RotationPhaseCutover]
      rw [hd]
      rcases checkCreationJob_cases db env with hc | hc
      · rw [hc]
        refine ⟨?_, Or.inl rfl⟩
        rw [hnp, h]
        simp [rotationPhases, RotationPhaseCreatingNew]
      · refine ⟨?_, Or.inr ?_⟩
        · simp [normPhase, hc, rotationPhases, RotationPhaseIdle,
            RotationPhaseCreatingNew, RotationPhaseCutover, RotationPhaseRevoking,
            RotationPhaseComplete]
        · simp [normPhase, hnp, hc, h, succPhase, RotationPhaseIdle,
            RotationPhaseCreatingNew, RotationPhaseCutover, RotationPhaseRevoking,
            RotationPhaseComplete]
    · have hd : RotateCredentials db env = performCutover db env := by
        unfold RotateCredentials
        rw [h]
        simp [RotationPhaseIdle, RotationPhaseCreatingNew, RotationPhaseCutover]
      rw [hd]
      rcases performCutover_cases db env with hc | hc
      · rw [hc]
        refine ⟨?_, Or.inl rfl⟩
        rw [hnp, h]
        simp [rotationPhases, RotationPhaseCutover]
      · refine ⟨?_, Or.inr ?_⟩
        · simp [normPhase, hc, rotationPhases, RotationPhaseIdle,
            RotationPhaseCreatingNew, RotationPhaseCutover, RotationPhaseRevoking,
            RotationPhaseComplete]
        · simp [normPhase, hnp, hc, h, succPhase, RotationPhaseIdle,
            RotationPhaseCreatingNew, RotationPhaseCutover, RotationPhaseRevoking,
            RotationPhaseComplete]
    · have hd : RotateCredentials db env = revokeOldCredentials db env := by
        unfold RotateCredentials
        rw [h]
        simp [RotationPhaseIdle, RotationPhaseCreatingNew, RotationPhaseCutover,
          RotationPhaseRevoking]
      rw [hd]
      rcases revokeOldCredentials_cases db env with hc | hc
      · rw [hc]
        refine ⟨?_, Or.inl rfl⟩
        rw [hnp, h]
        simp [rotationPhases, RotationPhaseRevoking]
      · refine ⟨?_, Or.inr ?_⟩
        · simp [normPhase, hc, rotationPhases, RotationPhaseIdle,
            RotationPhaseCreatingNew, RotationPhaseCutover, RotationPhaseRevoking,
            RotationPhaseComplete]
        · simp [normPhase, hnp, hc, h, succPhase, RotationPhaseIdle,
            RotationPhaseCreatingNew, RotationPhaseCutover, RotationPhaseRevoking,
            RotationPhaseComplete]
    · have hd : RotateCredentials db env = completeRotation db env := by
        unfold RotateCredentials
        rw [h]
        simp [RotationPhaseIdle, RotationPhaseCreatingNew, RotationPhaseCutover,
          RotationPhaseRevoking, RotationPhaseComplete]
      rw [hd]
      have hph := completeRotation_phase db env
      refine ⟨?_, Or.inr ?_⟩
      · simp [normPhase, hph, rotationPhases, RotationPhaseIdle,
          RotationPhaseCreatingNew, RotationPhaseCutover, RotationPhaseRevoking,
          RotationPhaseComplete]
      · simp [normPhase, hnp, hph, h, succPhase, RotationPhaseIdle,
          RotationPhaseCreatingNew, RotationPhaseCutover, RotationPhaseRevoking,
          RotationPhaseComplete]

/-- Any sequence of `RotateCredentials` calls starting from a defined phase
keeps the phase defined. -/
theorem advanceSeq_phases (db : Database) (envs : List RotEnv)
    (h : normPhase db ∈ rotationPhases) :
    normPhase (advanceSeq db envs) ∈ rotationPhases := by
  induction envs generalizing db with
  | nil => exact h
  | cons e es ih =>
    have := (rotate_step db e h).1
    simpa [advanceSeq] using ih (RotateCredentials db e).2 this

/-- C2: one `RotateCredentials` call per reconciliation cycle performs at most
one phase transition of the Idle → CreatingNew → Cutover → Revoking →
Complete → Idle machine, never skips a phase, and always lands in one of the
five defined phases; this holds after any sequence of calls with arbitrary
external-call outcomes, interrupted at any point by a restart — a restart
reloads the persisted status, which is exactly the state the `Database` value
carries, so it is the identity on the rotation state. -/
theorem rotation_machine_single_step_safe (db : Database) (envs : List RotEnv)
    (env : RotEnv) (h : normPhase db ∈ rotationPhases) :
    normPhase (advanceSeq db envs) ∈ rotationPhases ∧
    normPhase (RotateCredentials (advanceSeq db envs) env).2 ∈ rotationPhases ∧
    (normPhase (RotateCredentials (advanceSeq db envs) env).2 =
       normPhase (advanceSeq db envs) ∨
     normPhase (RotateCredentials (advanceSeq db envs) env).2 =
       succPhase (normPhase (advanceSeq db envs))) := by
  have h1 := advanceSeq_phases db envs h
  have h2 := rotate_step (advanceSeq db envs) env h1
  exact ⟨h1, h2.1, h2.2⟩

/-- C2 witness: the single-step theorem at a concrete database in phase Idle,
after one advance, with an all-success environment. -/
theorem rotation_machine_single_step_safe_witness :
    normPhase dbJustRotated ∈ rotationPhases ∧
    (normPhase (advanceSeq dbJustRotated [rotEnvAllOk]) ∈ rotationPhases ∧
     normPhase (RotateCredentials (advanceSeq dbJustRotated [rotEnvAllOk]) rotEnvAllOk).2 ∈
       rotationPhases ∧
     (normPhase (RotateCredentials (advanceSeq dbJustRotated [rotEnvAllOk]) rotEnvAllOk).2 =
        normPhase (advanceSeq dbJustRotated [rotEnvAllOk]) ∨
      normPhase (RotateCredentials (advanceSeq dbJustRotated [rotEnvAllOk]) rotEnvAllOk).2 =
        succPhase (normPhase (advanceSeq dbJustRotated [rotEnvAllOk])))) :=
  ⟨by decide, rotation_machine_single_step_safe dbJustRotated [rotEnvAllOk] rotEnvAllOk (by decide)⟩

/-- Storing a rotation status does not change the spec, so it does not change
whether Consul sync is configured. -/
theorem consulEnabled_setRotationStatus (db : Database) (rs : RotationStatus) :
    consulEnabled (setRotationStatus db rs) = consulEnabled db := rfl

/-- With Consul sync configured, `startRotation` always returns an error:
the sync (which is unimplemented and always fails) runs before the rotation
job is launched, and every branch reachable with Consul enabled errors. -/
theorem startRotation_err_of_consul (db : Database) (env : RotEnv)
    (hc : consulEnabled db = true) :
    (startRotation db env).1.isSome = true := by
  unfold startRotation
  simp only [syncToConsul]
  have hc1 : consulEnabled
      (setRotationStatus db
        { db.status.rotationStatus.getD emptyRotationStatus with
          phase := RotationPhaseCreatingNew }) = true := hc
  split_ifs <;> simp_all

/-- C3 counterexample: a database with Consul sync configured sitting in phase
`Idle`, with every platform call succeeding.  The advance returns the Consul
sync error, but the rotation phase is `CreatingNew`, not `Idle`: the claim's
"remains Idle / state unchanged on error" is false, because `startRotation`
assigns the phase before attempting the sync and does not roll it back. -/
theorem consul_sync_fail_phase_counterexample :
    (RotateCredentials dbConsulIdle rotEnvAllOk).1 =
      some "failed to sync credentials to Consul: Consul integration not yet implemented" ∧
    currentRotationPhase (RotateCredentials dbConsulIdle rotEnvAllOk).2 = "CreatingNew" ∧
    ¬ currentRotationPhase (RotateCredentials dbConsulIdle rotEnvAllOk).2 = "Idle" :=
  ⟨by decide, by decide, by decide⟩

/-- C3 amended: for every database with Consul sync configured, an advance
from phase Idle (or the empty phase) returns an error — the sync is
unimplemented and always fails — and leaves the rotation phase at
`CreatingNew` (assigned before the sync, not rolled back), rather than Idle. -/
theorem consul_sync_fail_leaves_CreatingNew (db : Database) (env : RotEnv)
    (hc : consulEnabled db = true)
    (hp : currentRotationPhase db = RotationPhaseIdle ∨ currentRotationPhase db = "") :
    (RotateCredentials db env).1.isSome = true ∧
    currentRotationPhase (RotateCredentials db env).2 = RotationPhaseCreatingNew := by
  have hd : RotateCredentials db env = startRotation db env := by
    unfold RotateCredentials
    rcases hp with hp | hp <;> rw [hp] <;> simp [RotationPhaseIdle]
  rw [hd]
  exact ⟨startRotation_err_of_consul db env hc, startRotation_phase db env⟩

/-- C3 amended witness: the amended theorem at the concrete Consul-enabled
Idle database. -/
theorem consul_sync_fail_leaves_CreatingNew_witness :
    consulEnabled dbConsulIdle = true ∧
    (currentRotationPhase dbConsulIdle = RotationPhaseIdle ∨
     currentRotationPhase dbConsulIdle = "") ∧
    ((RotateCredentials dbConsulIdle rotEnvAllOk).1.isSome = true ∧
     currentRotationPhase (RotateCredentials dbConsulIdle rotEnvAllOk).2 =
       RotationPhaseCreatingNew) :=
  ⟨by decide, by decide,
   consul_sync_fail_leaves_CreatingNew dbConsulIdle rotEnvAllOk (by decide) (by decide)⟩

/-- Shortly after a completed rotation: one second after the recorded
last-rotation timestamp. -/
def envShortlyAfter : Env := { envAllOk with now := 1001 }

/-- C4: the controller's due-check consults only
`status.rotationStatus.nextRotation`, which the code never populates (the
recomputation is a TODO), so the rotation advance is invoked again one second
after a completed rotation even though the schedule interval (30 days here)
has not elapsed — the claim's "not at all otherwise / due exactly when
now ≥ last-rotation + interval" does not hold on the code. -/
theorem rotation_due_check_ignores_schedule :
    (handleCredentialRotation dbJustRotated envShortlyAfter).2.2 = true ∧
    ((1001 : Int) < 1000 + 2592000) ∧
    ((handleCredentialRotation dbJustRotated envShortlyAfter).2.1.status.rotationStatus.map
      (fun rs => rs.nextRotation)) = some none :=
  ⟨by decide, by decide, by decide⟩

/-- C6 counterexample: one `Reconcile` call on a paused database (finalizer
present, no deletion timestamp) sets the in-memory phase to `Paused` but
issues no platform call at all — in particular no status-persistence call —
so the claim's "persists that status" is false. -/
theorem paused_phase_not_persisted_counterexample :
    (Reconcile dbPaused envAllOk).2.1.status.phase = "Paused" ∧
    (Reconcile dbPaused envAllOk).2.2 = ([] : List Effect) ∧
    Effect.statusUpdate ∉ (Reconcile dbPaused envAllOk).2.2 :=
  ⟨by decide, by decide, by decide⟩

/-- C6 amended: one `Reconcile` call on a paused database (finalizer present,
no deletion timestamp) sets the in-memory status phase to `Paused`, changes
nothing else, and returns success immediately with an empty effect trace: no
persistence call, no engine call, no sub-resource mutation. -/
theorem paused_sets_phase_in_memory_only (db : Database) (env : Env)
    (hdel : db.deletionTimestamp = none)
    (hfin : databaseFinalizer ∈ db.finalizers)
    (hpause : db.spec.lifecycle.paused = true) :
    Reconcile db env =
      ({ requeue := false, requeueAfterSec := 0, err := none },
        { db with status := { db.status with phase := "Paused" } },
        ([] : List Effect)) := by
  unfold Reconcile
  rw [hdel]
  simp [hfin, hpause, hdel, updatePhase]

/-- C6 amended witness: the amended theorem at the concrete paused database. -/
theorem paused_sets_phase_in_memory_only_witness :
    dbPaused.deletionTimestamp = none ∧
    databaseFinalizer ∈ dbPaused.finalizers ∧
    dbPaused.spec.lifecycle.paused = true ∧
    Reconcile dbPaused envAllOk =
      ({ requeue := false, requeueAfterSec := 0, err := none },
        { dbPaused with status := { dbPaused.status with phase := "Paused" } },
        ([] : List Effect)) :=
  ⟨by decide, by decide, by decide,
   paused_sets_phase_in_memory_only dbPaused envAllOk (by decide) (by decide) (by decide)⟩

/-- With deletion policy `Retain` and the finalizer present, `handleDeletion`
removes the finalizer and its effect trace contains no delete call on any
owned sub-resource. -/
theorem handleDeletion_retain (db : Database) (env : Env)
    (hpol : db.spec.lifecycle.deletionPolicy = "Retain")
    (hfin : databaseFinalizer ∈ db.finalizers) :
    databaseFinalizer ∉ (handleDeletion db env).2.1.finalizers ∧
    ∀ e ∈ (handleDeletion db env).2.2, e.isDeleteSub = false := by
  have hc : db.finalizers.contains databaseFinalizer = true := by
    simpa using hfin
  unfold handleDeletion
  simp only [hc, if_true, updatePhase, hpol]
  constructor
  · split_ifs <;> simp [removeFinalizer, List.mem_filter]
  · split_ifs <;> intro e he <;> simp at he <;>
      rcases he with rfl | rfl <;> rfl

/-- C7: for a database with deletion policy `Retain`, deletion timestamp set
and the finalizer present, one completed `Reconcile` call removes the
finalizer and issues no delete call against any owned sub-resource:
the deletion path persists phase `Deleting` and removes the finalizer, and
its effect trace contains no sub-resource delete. -/
theorem retain_removes_finalizer_no_delete (db : Database) (env : Env)
    (hts : db.deletionTimestamp.isSome = true)
    (hpol : db.spec.lifecycle.deletionPolicy = "Retain")
    (hfin : databaseFinalizer ∈ db.finalizers) :
    databaseFinalizer ∉ (Reconcile db env).2.1.finalizers ∧
    ∀ e ∈ (Reconcile db env).2.2, e.isDeleteSub = false := by
  have hr : Reconcile db env = handleDeletion db env := by
    unfold Reconcile
    rw [hts]
    simp
  rw [hr]
  exact handleDeletion_retain db env hpol hfin

/-- C7 witness: the Retain theorem at the concrete retained database. -/
theorem retain_removes_finalizer_no_delete_witness :
    dbRetain.deletionTimestamp.isSome = true ∧
    dbRetain.spec.lifecycle.deletionPolicy = "Retain" ∧
    databaseFinalizer ∈ dbRetain.finalizers ∧
    (databaseFinalizer ∉ (Reconcile dbRetain envAllOk).2.1.finalizers ∧
     ∀ e ∈ (Reconcile dbRetain envAllOk).2.2, e.isDeleteSub = false) :=
  ⟨by decide, by decide, by decide,
   retain_removes_finalizer_no_delete dbRetain envAllOk (by decide) (by decide) (by decide)⟩

/-- C9: the controller's `ensureBackupCronJob` is a TODO stub: on a database
with `backup.enabled = true` it returns success without creating any scheduled
execution template.  The backup manager's `CreateBackupCronJob` (not called by
the controller) names the CronJob by resource identity but unconditionally
issues a create — no update-in-place path — so a repeated invocation fails
instead of updating. -/
theorem backup_cronjob_not_ensured :
    ensureBackupCronJob dbBackup = (none, ([] : List Effect)) ∧
    dbBackup.spec.backup.enabled = true ∧
    cronJobName dbBackup = "db1-backup" ∧
    CreateBackupCronJob dbBackup true true = (none, [Effect.createSub "CronJob"]) ∧
    (CreateBackupCronJob dbBackup true false).1.isSome = true :=
  ⟨by decide, by decide, by decide, by decide, by decide⟩

/-- Unfolding equation of `setCondition` on the empty list. -/
theorem setCondition_nil (c : Condition) : setCondition [] c = [c] := rfl

/-- Unfolding equation of `setCondition` on a nonempty list. -/
theorem setCondition_cons (x : Condition) (xs : List Condition) (c : Condition) :
    setCondition (x :: xs) c =
      if x.type = c.type then (if x.status ≠ c.status then c else x) :: xs
      else x :: setCondition xs c := rfl

/-- Every member of `setCondition cs c` is a member of `cs` or is `c` itself. -/
theorem setCondition_mem (cs : List Condition) (c : Condition) :
    ∀ y ∈ setCondition cs c, y ∈ cs ∨ y = c := by
  induction cs with
  | nil =>
    intro y hy
    rw [setCondition_nil] at hy
    exact Or.inr (List.mem_singleton.mp hy)
  | cons x xs ih =>
    intro y hy
    rw [setCondition_cons] at hy
    by_cases ht : x.type = c.type
    · rw [if_pos ht] at hy
      by_cases hs : x.status ≠ c.status
      · rw [if_pos hs] at hy
        rcases List.mem_cons.mp hy with h | h
        · exact Or.inr h
        · exact Or.inl (List.mem_cons_of_mem x h)
      · rw [if_neg hs] at hy
        exact Or.inl hy
    · rw [if_neg ht] at hy
      rcases List.mem_cons.mp hy with h | h
      · exact Or.inl (h ▸ List.mem_cons_self x xs)
      · rcases ih y h with h2 | h2
        · exact Or.inl (List.mem_cons_of_mem x h2)
        · exact Or.inr h2

/-- `setCondition` preserves type-uniqueness of the stored conditions. -/
theorem setCondition_nodup (cs : List Condition) (c : Condition)
    (h : cs.Pairwise (fun a b => a.type ≠ b.type)) :
    (setCondition cs c).Pairwise (fun a b => a.type ≠ b.type) := by
  induction cs with
  | nil =>
    rw [setCondition_nil]
    exact List.pairwise_singleton _ _
  | cons x xs ih =>
    rw [List.pairwise_cons] at h
    obtain ⟨hx, hxs⟩ := h
    rw [setCondition_cons]
    by_cases ht : x.type = c.type
    · rw [if_pos ht]
      by_cases hs : x.status ≠ c.status
      · rw [if_pos hs]
        exact List.pairwise_cons.mpr ⟨fun y hy => ht ▸ hx y hy, hxs⟩
      · rw [if_neg hs]
        exact List.pairwise_cons.mpr ⟨hx, hxs⟩
    · rw [if_neg ht]
      refine List.pairwise_cons.mpr ⟨?_, ih hxs⟩
      intro y hy
      rcases setCondition_mem xs c y hy with h2 | h2
      · exact hx y h2
      · rw [h2]
        exact ht

/-- Folding `setCondition` over any call sequence preserves type-uniqueness. -/
theorem foldl_setCondition_nodup (calls : List Condition) (cs : List Condition)
    (h : cs.Pairwise (fun a b => a.type ≠ b.type)) :
    (calls.foldl setCondition cs).Pairwise (fun a b => a.type ≠ b.type) := by
  induction calls generalizing cs with
  | nil => exact h
  | cons c cs' ih => exact ih (setCondition cs c) (setCondition_nodup cs c h)

/-- If the stored conditions are type-unique and already contain an entry of
the new condition's type with the same boolean status, `setCondition` returns
the list unchanged. -/
theorem setCondition_stable (cs : List Condition) (c x : Condition)
    (hpw : cs.Pairwise (fun a b => a.type ≠ b.type))
    (hmem : x ∈ cs) (ht : x.type = c.type) (hs : x.status = c.status) :
    setCondition cs c = cs := by
  induction cs with
  | nil => cases hmem
  | cons a as ih =>
    rw [List.pairwise_cons] at hpw
    obtain ⟨ha, has⟩ := hpw
    rcases List.mem_cons.mp hmem with h | hmem
    · rw [setCondition_cons, if_pos (h ▸ ht), if_neg (not_not_intro (h ▸ hs))]
    · by_cases hat : a.type = c.type
      · exact absurd (hat.trans ht.symm) (ha x hmem)
      · rw [setCondition_cons, if_neg hat, ih has hmem]

/-- C10: across any sequence of `setCondition` calls starting from the empty
condition list, the stored conditions never contain two entries of the same
type; and a call whose type matches a stored entry with the same boolean
status leaves the stored list — and hence that entry's reason, message and
last-transition-time — entirely unchanged. -/
theorem setCondition_unique_types_and_stable :
    (∀ calls : List Condition,
      (calls.foldl setCondition []).Pairwise (fun a b => a.type ≠ b.type)) ∧
    (∀ (cs : List Condition) (c x : Condition),
      cs.Pairwise (fun a b => a.type ≠ b.type) → x ∈ cs → x.type = c.type →
      x.status = c.status → setCondition cs c = cs) :=
  ⟨fun calls => foldl_setCondition_nodup calls [] (by simp),
   fun cs c x hpw hmem ht hs => setCondition_stable cs c x hpw hmem ht hs⟩

/-- A stored Ready condition. -/
def condReadyStored : Condition :=
  { type := "Ready", status := true, observedGeneration := 1,
    lastTransitionTime := 10, reason := "Ready", message := "Database is ready" }

/-- A later Ready call with the same status but different reason, message and
transition time. -/
def condReadyAgain : Condition :=
  { type := "Ready", status := true, observedGeneration := 2,
    lastTransitionTime := 20, reason := "StillReady", message := "unchanged" }

/-- C10 witness: the combined theorem applied to a concrete call sequence and
a concrete same-type same-status update. -/
theorem setCondition_unique_types_and_stable_witness :
    ([condReadyStored].foldl setCondition []).Pairwise (fun a b => a.type ≠ b.type) ∧
    ([condReadyStored].Pairwise (fun a b => a.type ≠ b.type) ∧
     condReadyStored ∈ [condReadyStored] ∧
     condReadyStored.type = condReadyAgain.type ∧
     condReadyStored.status = condReadyAgain.status ∧
     setCondition [condReadyStored] condReadyAgain = [condReadyStored]) :=
  ⟨setCondition_unique_types_and_stable.1 [condReadyStored],
   by simp, by simp, by decide, by decide,
   setCondition_unique_types_and_stable.2 [condReadyStored] condReadyAgain
     condReadyStored (by simp) (by simp) (by decide) (by decide)⟩

end DatabaseCRD
